import Mathlib

/-
Verification development for the NSM (Nexus Simple Memory) archive tool.

The Go sources are shallowly embedded as pure Lean functions:
- internal/core/format.go      : big-endian header serialization (Header,
  WriteHeader, ReadHeader, MagicNumber, HeaderSize)
- internal/core/compression.go : Compressor.Compress / Decompress dispatch
  (streaming codecs abstracted as functions on byte lists)
- internal/auth/tokens.go      : TokenManager.ConsumeToken / ValidateOnline /
  saveState (file persistence modeled by a Bool outcome parameter and an
  Option recording what was successfully written)
- the engine source file       : Engine.useToken / Create / Extract / Search

Bytes are Nat values (machine bytes are below 256; hypotheses state this
where it matters).  Go int and int64 are modeled as Int; the explicit
mod 2 pow 64 mask appears exactly where the Go serializer truncates.
Go functions returning error are modeled with Option (none = nil error)
or Except where a value is also produced.
-/

namespace NSM

/-- Big-endian fixed-width serialization: w bytes of the value v, most
significant byte first, as produced by the Go encoding/binary package in
BigEndian mode.  The value is implicitly masked to w bytes. -/
def beBytes : Nat → Nat → List Nat
  | 0, _ => []
  | w + 1, v => (v / 2 ^ (8 * w)) % 256 :: beBytes w v

/-- Big-endian value of a byte list, the decoding direction of the Go
encoding/binary package in BigEndian mode. -/
def beVal : List Nat → Nat
  | [] => 0
  | b :: bs => b * 2 ^ (8 * bs.length) + beVal bs

/-- MagicNumber identifies a valid .nsm archive (NSM v1), from
internal/core/format.go. -/
def MagicNumber : Nat := 0x4E534D01

/-- HeaderSize is the fixed size of the archive header in bytes, from
internal/core/format.go. -/
def HeaderSize : Nat := 64

/-- Error codes attached by NewCoreError in internal/core.  The codes used by
format.go and compression.go appear here; unsupportedVersion is the code the
specification names for a version check (no code in format.go produces it). -/
inductive CoreErr where
  | archiveRead
  | archiveWrite
  | invalidFormat
  | unsupportedVersion
  | unsupportedAlgorithm
  | compression
  | decompression
deriving DecidableEq, Repr

/-- Header is the fixed-size block at the beginning of every .nsm file, from
internal/core/format.go.  Field widths from the Go struct: Magic uint32,
Version uint16, CompressionType uint8, EncryptionType uint8, Timestamp int64,
IndexOffset int64, IndexLength int64, DataChecksum an array of 32 bytes
(modeled as a function from Fin 32, so it always has exactly 32 cells, as a
Go array does). -/
structure Header where
  magic : Nat
  version : Nat
  compressionType : Nat
  encryptionType : Nat
  timestamp : Int
  indexOffset : Int
  indexLength : Int
  dataChecksum : Fin 32 → Nat

/-- Serialization of a Go int64 by encoding/binary in BigEndian mode: the
two's-complement value masked to 64 bits, written as 8 big-endian bytes. -/
def int64Bytes (v : Int) : List Nat :=
  beBytes 8 (Int.toNat (v % (2 ^ 64 : Int)))

/-- Decoding of 8 big-endian bytes into a Go int64: values at or above
2 to the 63rd represent negative numbers in two's complement. -/
def int64OfBytes (bs : List Nat) : Int :=
  if beVal bs < 2 ^ 63 then (beVal bs : Int) else (beVal bs : Int) - 2 ^ 64

/-- WriteHeader from internal/core/format.go: binary.Write in BigEndian mode
serializes the Header fields in declaration order at their fixed widths.  The
destination writer is modeled as the produced byte list; write errors of the
underlying stream are outside the model (binary.Write only forwards them). -/
def writeHeader (h : Header) : List Nat :=
  beBytes 4 h.magic ++ beBytes 2 h.version ++ beBytes 1 h.compressionType ++
    beBytes 1 h.encryptionType ++ int64Bytes h.timestamp ++
    int64Bytes h.indexOffset ++ int64Bytes h.indexLength ++
    List.ofFn (fun i : Fin 32 => h.dataChecksum i % 256)

/-- ReadHeader from internal/core/format.go: binary.Read fills the 64-byte
Header from the stream (fewer than 64 available bytes is an EOF or unexpected
EOF, reported as the archiveRead code); afterwards the function checks only
the magic constant, answering invalidFormat on a mismatch.  No other
validation is performed. -/
def readHeader (bs : List Nat) : Except CoreErr Header :=
  if bs.length < HeaderSize then
    Except.error CoreErr.archiveRead
  else
    let hd : Header :=
      { magic := beVal (bs.take 4)
        version := beVal ((bs.drop 4).take 2)
        compressionType := beVal ((bs.drop 6).take 1)
        encryptionType := beVal ((bs.drop 7).take 1)
        timestamp := int64OfBytes ((bs.drop 8).take 8)
        indexOffset := int64OfBytes ((bs.drop 16).take 8)
        indexLength := int64OfBytes ((bs.drop 24).take 8)
        dataChecksum := fun i => (bs.drop 32).getD i.val 0 }
    if hd.magic = MagicNumber then Except.ok hd else Except.error CoreErr.invalidFormat

/-- Observation helper: whether a parse result carries a header. -/
def exceptOkB : Except CoreErr Header → Bool
  | Except.ok _ => true
  | Except.error _ => false

/-- Observation helper: the error code of a parse result, if any. -/
def errOf : Except CoreErr Header → Option CoreErr
  | Except.ok _ => none
  | Except.error e => some e

/-- Observation helper: the version field of a parsed header, 0 on error. -/
def versionOf : Except CoreErr Header → Nat
  | Except.ok h => h.version
  | Except.error _ => 0

/-- Observation helper: whether a parse result is the unsupportedVersion
error. -/
def isUnsupportedVersionB : Except CoreErr Header → Bool
  | Except.error CoreErr.unsupportedVersion => true
  | _ => false

/-- Observation helper: whether a parse result is the invalidFormat error. -/
def isInvalidFormatB : Except CoreErr Header → Bool
  | Except.error CoreErr.invalidFormat => true
  | _ => false

/-- ZSTD compression type tag, a string constant in
internal/core/compression.go. -/
def ZSTD : String := "zstd"

/-- GZIP compression type tag, a string constant in
internal/core/compression.go. -/
def GZIP : String := "gzip"

namespace Compressor

/-- Compress from internal/core/compression.go.  The switch on the
compression-type string selects the zstd path, the gzip path, or the default
branch, which returns the unsupportedAlgorithm error before any writer is
constructed and before any byte reaches the destination.  The streaming
codecs themselves (zstd encoder from the sync.Pool, fresh gzip writer) are
abstracted as functions from source bytes to encoded bytes, quantified over
in the theorems; the result triple is (bytes that reached the destination
through the writeCounter, the returned int64 byte count, the returned error
with none standing for the nil error). -/
def Compress (zstdEnc gzipEnc : List Nat → List Nat) (compType : String)
    (src : List Nat) : List Nat × Nat × Option CoreErr :=
  if compType = ZSTD then
    let out := zstdEnc src
    (out, out.length, none)
  else if compType = GZIP then
    let out := gzipEnc src
    (out, out.length, none)
  else
    ([], 0, some CoreErr.unsupportedAlgorithm)

/-- Decompress from internal/core/compression.go, symmetric to Compress: the
default branch of the switch returns the unsupportedAlgorithm error before
any reader is constructed and before any byte is written to the destination;
the zstd and gzip streaming decoders are abstracted as functions. -/
def Decompress (zstdDec gzipDec : List Nat → List Nat) (compType : String)
    (src : List Nat) : List Nat × Nat × Option CoreErr :=
  if compType = ZSTD then
    let out := zstdDec src
    (out, out.length, none)
  else if compType = GZIP then
    let out := gzipDec src
    (out, out.length, none)
  else
    ([], 0, some CoreErr.unsupportedAlgorithm)

end Compressor

/-- TokenState from internal/auth/tokens.go: the record persisted as JSON.
AvailableTokens is a Go int, modeled as Int: the JSON decoder in loadState
performs no range validation, so any integer, negative values included, can
be loaded from the file.  LastSync time.Time is modeled as Int. -/
structure TokenState where
  licenseKey : String
  availableTokens : Int
  lastSync : Int
deriving DecidableEq, Repr

/-- Error values of internal/auth/tokens.go: ErrNoTokens,
ErrValidationFailed, ErrPersistence. -/
inductive AuthErr where
  | noTokens
  | validationFailed
  | persistence
deriving DecidableEq, Repr

namespace TokenManager

/-- Outcome of a TokenManager call: the in-memory state after the call, the
state successfully written to the persistence file during the call (none
when the file was not touched or the write failed), and the returned error
(none standing for the nil error). -/
abbrev LedgerOutcome := TokenState × Option TokenState × Option AuthErr

/-- The saveState method of internal/auth/tokens.go serializes the state and
writes it to the token file, answering ErrPersistence when marshalling or the
file write fails.  The file system outcome is abstracted by the persistOk
flag: the pair holds what reached the file and the returned error. -/
def saveState (st : TokenState) (persistOk : Bool) :
    Option TokenState × Option AuthErr :=
  if persistOk then (some st, none) else (none, some AuthErr.persistence)

/-- The consumeToken method (ConsumeToken in internal/auth/tokens.go): under
the single mutex it checks the counter, answers ErrNoTokens when the counter
is at or below zero without touching state or file, and otherwise decrements
and returns the result of saveState, so the nil answer is given only after
the decremented state reached the file.  The mutex serializes calls within
the process, so each call is modeled as one atomic transition. -/
def consumeToken (st : TokenState) (persistOk : Bool) : LedgerOutcome :=
  if st.availableTokens ≤ 0 then
    (st, none, some AuthErr.noTokens)
  else
    let st2 : TokenState := { st with availableTokens := st.availableTokens - 1 }
    let save := saveState st2 persistOk
    (st2, save.1, save.2)

/-- The validateOnline method (ValidateOnline in internal/auth/tokens.go):
with an empty license key it returns nil without touching anything; with a
license key present, the body is an explicit placeholder whose real API call
is commented out, and the active code unconditionally sets the counter to 5,
stamps the sync time, and persists.  No network interaction exists in the
active code, faithfully reflected here by the absence of any network
parameter. -/
def validateOnline (st : TokenState) (persistOk : Bool) (now : Int) :
    LedgerOutcome :=
  if st.licenseKey = "" then
    (st, none, none)
  else
    let st2 : TokenState := { st with availableTokens := 5, lastSync := now }
    let save := saveState st2 persistOk
    (st2, save.1, save.2)

/-- The availableTokens accessor (AvailableTokens in
internal/auth/tokens.go): a point-in-time read under the mutex. -/
def availableTokens (st : TokenState) : Int := st.availableTokens

end TokenManager

/-- Config from the engine source file: license key, available token count
(a Go int, modeled as Int), default algorithm, encryption key bytes. -/
structure Config where
  licenseKey : String
  tokenCount : Int
  defaultAlgo : String
  encryptionKey : List Nat
deriving DecidableEq, Repr

/-- Error values returned by the engine source file.  Each constructor
stands for one distinct message built there with errors.New: noTokens for
the message asking to buy more tokens, and the three unimplemented markers
for the literal not-fully-implemented messages of Create, Extract and
Search. -/
inductive EngineErr where
  | noTokens
  | createUnfinished
  | extractUnfinished
  | searchUnfinished
deriving DecidableEq, Repr

namespace Engine

/-- NewEngine from the engine source file, restricted to its effect on the
configuration: a zero token count is replaced by one free token (the nil
configuration check is outside a total model). -/
def NewEngine (cfg : Config) : Config :=
  if cfg.tokenCount = 0 then { cfg with tokenCount := 1 } else cfg

/-- The useToken method of the engine source file: answer the no-tokens
error when the in-memory count is at or below zero, otherwise decrement the
in-memory count and succeed.  Nothing is persisted and the auth package is
never called. -/
def useToken (cfg : Config) : Config × Option EngineErr :=
  if cfg.tokenCount ≤ 0 then
    (cfg, some EngineErr.noTokens)
  else
    ({ cfg with tokenCount := cfg.tokenCount - 1 }, none)

/-- The Create method of the engine source file: it calls useToken and
propagates its error; on authorization the entire archive-writing plan is
present only as a comment, and the function returns the
not-fully-implemented error.  No file is ever opened or written: the
function body performs no file input or output at all. -/
def Create (cfg : Config) (outputFile : String) (inputFiles : List String) :
    Config × Option EngineErr :=
  match useToken cfg with
  | (cfg2, some e) => (cfg2, some e)
  | (cfg2, none) => (cfg2, some EngineErr.createUnfinished)

/-- The Extract method of the engine source file: the extraction plan is
present only as a comment and the function unconditionally returns the
not-fully-implemented error. -/
def Extract (cfg : Config) (archiveFile destinationPath : String) :
    Option EngineErr :=
  some EngineErr.extractUnfinished

/-- The Search method of the engine source file: the search plan is present
only as a comment and the function unconditionally returns nil results with
the not-fully-implemented error. -/
def Search (cfg : Config) (archiveFile query : String) :
    List String × Option EngineErr :=
  ([], some EngineErr.searchUnfinished)

end Engine

/-- Concrete 64-byte input whose first four bytes are the magic constant and
whose version field (bytes 4 and 5) is 65535, far beyond the version this
codec was written for. -/
def highVersionInput : List Nat :=
  [0x4E, 0x53, 0x4D, 0x01, 0xFF, 0xFF] ++ List.replicate 58 0

/-- Concrete 5-byte input: shorter than a header, first four bytes are not
the magic constant. -/
def shortBadInput : List Nat := [0, 0, 0, 0, 0]

/-- Concrete 64-byte input of zeros: long enough for a header, first four
bytes are not the magic constant. -/
def zeros64 : List Nat := List.replicate 64 0

/-- Configuration built the way the repository test setupTestEngine builds
it with one token: NewEngine over a config with token count 1. -/
def testCfg : Config :=
  Engine.NewEngine { licenseKey := "test-license-key", tokenCount := 1,
                     defaultAlgo := "zstd", encryptionKey := [] }

theorem beBytes_length (w v : Nat) : (beBytes w v).length = w := by
  induction w generalizing v with
  | zero => rfl
  | succ n ih => simp [beBytes, ih]

theorem beVal_lt (l : List Nat) (h : ∀ b ∈ l, b < 256) :
    beVal l < 2 ^ (8 * l.length) := by
  induction l with
  | nil => simp [beVal]
  | cons b t ih =>
    have hb : b < 256 := h b (by simp)
    have ht : beVal t < 2 ^ (8 * t.length) := ih (fun x hx => h x (by simp [hx]))
    have hstep : 2 ^ (8 * (t.length + 1)) = 256 * 2 ^ (8 * t.length) := by
      have : 8 * (t.length + 1) = 8 + 8 * t.length := by ring
      rw [this, pow_add]
      norm_num
    simp only [beVal, List.length_cons, hstep]
    have hmul : b * 2 ^ (8 * t.length) + 2 ^ (8 * t.length)
        ≤ 256 * 2 ^ (8 * t.length) := by
      have : (b + 1) * 2 ^ (8 * t.length) ≤ 256 * 2 ^ (8 * t.length) :=
        Nat.mul_le_mul_right _ (by omega)
      calc b * 2 ^ (8 * t.length) + 2 ^ (8 * t.length)
          = (b + 1) * 2 ^ (8 * t.length) := by ring
        _ ≤ 256 * 2 ^ (8 * t.length) := this
    omega

theorem beBytes_mod (w v : Nat) :
    beBytes w (v % 2 ^ (8 * w)) = beBytes w v := by
  induction w generalizing v with
  | zero => rfl
  | succ n ih =>
    have hsplit : 2 ^ (8 * (n + 1)) = 2 ^ (8 * n) * 2 ^ 8 := by
      rw [← pow_add, Nat.mul_succ]
    simp only [beBytes]
    refine List.cons_eq_cons.mpr ⟨?_, ?_⟩
    · rw [hsplit, Nat.mod_mul_right_div_self]
      generalize v / 2 ^ (8 * n) = x
      have h256 : (2 : Nat) ^ 8 = 256 := by norm_num
      rw [h256]
      omega
    · rw [← ih (v % 2 ^ (8 * (n + 1))), ← ih v]
      congr 1
      exact Nat.mod_mod_of_dvd v (by rw [hsplit]; exact Dvd.intro _ rfl)

theorem beBytes_beVal (l : List Nat) (h : ∀ b ∈ l, b < 256) :
    beBytes l.length (beVal l) = l := by
  induction l with
  | nil => rfl
  | cons b t ih =>
    have hb : b < 256 := h b (by simp)
    have ht : beVal t < 2 ^ (8 * t.length) :=
      beVal_lt t (fun x hx => h x (by simp [hx]))
    have hpos : 0 < 2 ^ (8 * t.length) := Nat.pos_pow_of_pos _ (by norm_num)
    simp only [List.length_cons, beBytes, beVal]
    rw [Nat.mul_comm b (2 ^ (8 * t.length))]
    refine List.cons_eq_cons.mpr ⟨?_, ?_⟩
    · rw [Nat.mul_add_div hpos, Nat.div_eq_of_lt ht]
      simpa using Nat.mod_eq_of_lt hb
    · rw [← beBytes_mod, Nat.mul_add_mod, Nat.mod_eq_of_lt ht]
      exact ih (fun x hx => h x (by simp [hx]))

/-- Claim C1: the spec states that extracting the archive produced by Create
reproduces every input file byte for byte.  In the code, Create never
produces an archive at all: after the token debit it returns the
not-fully-implemented error for every configuration and every input list
(the repository test comments confirm the stub), and Extract is equally
unimplemented, so the round-trip property has no run it could hold on. -/
theorem create_never_succeeds_no_roundtrip :
    ∀ (cfg : Config) (outputFile : String) (inputFiles : List String)
      (archiveFile destinationPath : String),
      ((Engine.Create cfg outputFile inputFiles).2 = some EngineErr.noTokens ∨
        (Engine.Create cfg outputFile inputFiles).2 =
          some EngineErr.createUnfinished) ∧
      Engine.Extract cfg archiveFile destinationPath =
        some EngineErr.extractUnfinished := by
  intro cfg outputFile inputFiles archiveFile destinationPath
  refine ⟨?_, rfl⟩
  unfold Engine.Create Engine.useToken
  by_cases h : cfg.tokenCount ≤ 0 <;> simp [h]

/-- Claim C2: the spec states that with N tokens, N Create calls succeed and
the next fails with the no-tokens error.  Evaluated at the failing input
N = 1 (the repository test configuration): the first Create call does
consume the one token before anything is written, but it does not succeed,
answering the not-fully-implemented error; the second call fails with the
no-tokens error.  The engine also never calls the auth TokenManager: the
count lives only in the in-memory configuration. -/
theorem create_token_metering_stub_eval :
    (Engine.Create testCfg "token_test.nsm" ["testfile.dat"]).2 =
      some EngineErr.createUnfinished ∧
    (Engine.Create testCfg "token_test.nsm" ["testfile.dat"]).1.tokenCount = 0 ∧
    (Engine.Create (Engine.Create testCfg "token_test.nsm" ["testfile.dat"]).1
        "token_test.nsm" ["testfile.dat"]).2 = some EngineErr.noTokens := by
  decide

/-- Claim C3 counterexample: a 64-byte input with the correct magic constant
and version field 65535 is accepted by ReadHeader, which returns the parsed
header instead of the UnsupportedVersion failure the claim requires. -/
theorem readHeader_high_version_accepted_cex :
    exceptOkB (readHeader highVersionInput) = true ∧
    versionOf (readHeader highVersionInput) = 65535 ∧
    isUnsupportedVersionB (readHeader highVersionInput) = false := by
  decide

/-- Claim C3 as amended: ReadHeader performs no version check at all.  It
never produces the unsupportedVersion error on any input, and any input of
at least header size whose first four bytes decode to the magic constant is
accepted whatever its version field holds. -/
theorem readHeader_no_version_check (bs : List Nat) :
    isUnsupportedVersionB (readHeader bs) = false ∧
    (HeaderSize ≤ bs.length → beVal (bs.take 4) = MagicNumber →
      exceptOkB (readHeader bs) = true) := by
  constructor
  · simp only [readHeader]
    split
    · rfl
    · split <;> rfl
  · intro h1 h2
    simp [readHeader, Nat.not_lt.mpr h1, h2, exceptOkB]

/-- Witness for the amended claim C3 at the concrete high-version input. -/
theorem readHeader_no_version_check_witness :
    exceptOkB (readHeader highVersionInput) = true :=
  (readHeader_no_version_check highVersionInput).2 (by decide) (by decide)

/-- Claim C4 counterexample: the 5-byte input of zeros has first four bytes
different from the magic constant, yet ReadHeader fails with the
archiveRead code (binary.Read hits end of file before 64 bytes), not with
InvalidFormat as the claim requires for every such input. -/
theorem readHeader_short_input_cex :
    errOf (readHeader shortBadInput) = some CoreErr.archiveRead ∧
    isInvalidFormatB (readHeader shortBadInput) = false := by
  decide

/-- Claim C4 as amended: for every input whose first four bytes (as bytes,
below 256) differ from the magic constant, ReadHeader never returns a
header; and when the input is at least HeaderSize bytes long, the failure is
the invalidFormat error.  Inputs shorter than a header fail with the read
error instead. -/
theorem readHeader_magic_mismatch (bs : List Nat)
    (hbytes : ∀ b ∈ bs.take 4, b < 256)
    (hne : bs.take 4 ≠ beBytes 4 MagicNumber) :
    exceptOkB (readHeader bs) = false ∧
    (HeaderSize ≤ bs.length → errOf (readHeader bs) = some CoreErr.invalidFormat) := by
  by_cases hlen : bs.length < HeaderSize
  · constructor
    · simp [readHeader, hlen, exceptOkB]
    · intro hge
      exact absurd hge (by omega)
  · have hl4 : (bs.take 4).length = 4 := by
      rw [List.length_take]
      simp only [HeaderSize] at hlen
      omega
    have hmagic : beVal (bs.take 4) ≠ MagicNumber := by
      intro hm
      apply hne
      have h2 := beBytes_beVal (bs.take 4) hbytes
      rw [hl4, hm] at h2
      exact h2.symm
    constructor
    · simp [readHeader, hlen, hmagic, exceptOkB]
    · intro hge
      simp [readHeader, hlen, hmagic, errOf]

/-- Witness for the amended claim C4 at the concrete all-zero 64-byte
input. -/
theorem readHeader_magic_mismatch_witness :
    errOf (readHeader zeros64) = some CoreErr.invalidFormat :=
  (readHeader_magic_mismatch zeros64 (by decide) (by decide)).2 (by decide)

/-- Claim C5: for every compression-type tag other than the zstd default and
the gzip fallback, both Compress and Decompress return the
unsupportedAlgorithm error, write no bytes to the destination, and never
fall back to another algorithm: the result is the same for every possible
codec implementation, so none of them is invoked. -/
theorem compress_unsupported_algorithm
    (zstdEnc gzipEnc zstdDec gzipDec : List Nat → List Nat)
    (compType : String) (src : List Nat)
    (hz : compType ≠ ZSTD) (hg : compType ≠ GZIP) :
    Compressor.Compress zstdEnc gzipEnc compType src =
      ([], 0, some CoreErr.unsupportedAlgorithm) ∧
    Compressor.Decompress zstdDec gzipDec compType src =
      ([], 0, some CoreErr.unsupportedAlgorithm) := by
  constructor <;>
    simp [Compressor.Compress, Compressor.Decompress, hz, hg]

/-- Witness for claim C5 at the concrete unsupported tag lz4. -/
theorem compress_unsupported_algorithm_witness :
    Compressor.Compress id id "lz4" [1, 2, 3] =
      ([], 0, some CoreErr.unsupportedAlgorithm) ∧
    Compressor.Decompress id id "lz4" [1, 2, 3] =
      ([], 0, some CoreErr.unsupportedAlgorithm) :=
  compress_unsupported_algorithm id id id id "lz4" [1, 2, 3]
    (by decide) (by decide)

/-- Claim C6: the spec states that ValidateOnline overwrites local state only
after a successful round-trip with the remote authority and leaves state
untouched on network failure.  Evaluated at the failing input (a state with
license key ABC and 100 available tokens): the active code performs no
network call at all and unconditionally overwrites the count to 5 and
persists, as this evaluation of the embedded function shows. -/
theorem validateOnline_placeholder_eval :
    TokenManager.validateOnline
        { licenseKey := "ABC", availableTokens := 100, lastSync := 0 } true 7 =
      ({ licenseKey := "ABC", availableTokens := 5, lastSync := 7 },
        some { licenseKey := "ABC", availableTokens := 5, lastSync := 7 },
        none) := by
  decide

/-- Claim C7: ConsumeToken acknowledges success exactly when a token was
available and the decremented state reached the persistence file, and on
success the file holds the decremented state: persist-before-acknowledge.
The single mutex serializes calls, so each call is one atomic transition of
the model. -/
theorem consumeToken_persist_before_ack (st : TokenState) (persistOk : Bool) :
    ((TokenManager.consumeToken st persistOk).2.2 = none ↔
      (0 < st.availableTokens ∧ persistOk = true)) ∧
    ((TokenManager.consumeToken st persistOk).2.2 = none →
      (TokenManager.consumeToken st persistOk).2.1 =
        some { st with availableTokens := st.availableTokens - 1 }) := by
  by_cases h : st.availableTokens ≤ 0
  · constructor
    · simp only [TokenManager.consumeToken, if_pos h]
      constructor
      · intro hc
        exact absurd hc (by simp)
      · intro hc
        exact absurd hc.1 (by omega)
    · intro hok
      simp [TokenManager.consumeToken, if_pos h] at hok
  · constructor
    · cases persistOk <;>
        simp [TokenManager.consumeToken, TokenManager.saveState, h] <;> omega
    · intro hok
      cases persistOk with
      | false =>
        simp [TokenManager.consumeToken, TokenManager.saveState, h] at hok
      | true =>
        simp [TokenManager.consumeToken, TokenManager.saveState, h]

/-- Witness for claim C7 at a concrete two-token state with a successful
persistence outcome. -/
theorem consumeToken_persist_before_ack_witness :
    (TokenManager.consumeToken
        { licenseKey := "key", availableTokens := 2, lastSync := 0 } true).2.1 =
      some { licenseKey := "key", availableTokens := 1, lastSync := 0 } :=
  (consumeToken_persist_before_ack
      { licenseKey := "key", availableTokens := 2, lastSync := 0 } true).2
    (by decide)

/-- Claim C8: WriteHeader encodes every Header value to exactly HeaderSize
equal to 64 bytes, whatever the field values: 4 for the magic, 2 for the
version, 1 each for the compression and encryption tags, 8 each for the
timestamp and the index offset and length, and 32 for the checksum. -/
theorem writeHeader_length_eq (h : Header) :
    (writeHeader h).length = HeaderSize := by
  simp [writeHeader, beBytes_length, int64Bytes, HeaderSize]

/-- Claim C10: whenever the available count is zero or negative (negative
counts can be loaded from the persisted file, whose JSON decoding performs
no range validation, hence the Int model), ConsumeToken answers the
no-tokens error and leaves both the in-memory state and the persisted file
untouched. -/
theorem consumeToken_nonpositive_unchanged (st : TokenState) (persistOk : Bool)
    (h : st.availableTokens ≤ 0) :
    TokenManager.consumeToken st persistOk =
      (st, none, some AuthErr.noTokens) := by
  simp [TokenManager.consumeToken, h]

/-- Witness for claim C10 at a concrete state holding a negative count of
minus three. -/
theorem consumeToken_nonpositive_unchanged_witness :
    TokenManager.consumeToken
        { licenseKey := "key2", availableTokens := -3, lastSync := 5 } true =
      ({ licenseKey := "key2", availableTokens := -3, lastSync := 5 },
        none, some AuthErr.noTokens) :=
  consumeToken_nonpositive_unchanged
    { licenseKey := "key2", availableTokens := -3, lastSync := 5 } true
    (by decide)

end NSM
